import Mathlib

/-!
# Verification of the weather resolution and caching subsystem

Shallow embedding of `functions/lib/weather.ts` (the richer variant, with
cache, geocode disambiguation and debug support).  JS numbers that carry
weather readings are modelled as `ℚ`; 32-bit unsigned integer arithmetic
(`Math.imul`, `^`, `>>> 0`) is modelled on `Nat` with explicit `% 2^32`;
UTF-16 code units are modelled explicitly; `async` functions that can throw
are modelled in `Except Unit`; the platform cache and the network are
modelled as explicit world records.
-/

namespace Weather

/-- `type WeatherSource = 'open-meteo' | 'mock'` -/
inductive WeatherSource where
  | openMeteo
  | mock
deriving DecidableEq, Repr

/-- `type CacheStatus = 'hit' | 'miss' | 'bypass'` -/
inductive CacheStatus where
  | hit
  | miss
  | bypass
deriving DecidableEq, Repr

/-- `GeocodeInfo`: optional resolved location metadata. -/
structure GeocodeInfo where
  name : Option String := none
  country : Option String := none
  admin1 : Option String := none
  latitude : Option ℚ := none
  longitude : Option ℚ := none
  timezone : Option String := none
deriving DecidableEq, Repr

/-- `WeatherSnapshot`, the canonical output of the subsystem. -/
structure WeatherSnapshot where
  condition : String
  temperatureC : ℚ
  humidity : ℚ
  source : WeatherSource
  observedAt : Option String := none
  cacheKey : Option String := none
  cacheStatus : Option CacheStatus := none
  normalizedCity : Option String := none
  geocode : Option GeocodeInfo := none
deriving DecidableEq, Repr

/-- `WeatherEnv`: the configuration record.  `WEATHER_CACHE_TTL_SECONDS` and
`WEATHER_TIMEOUT_MS` are modelled post-`Number()`-parsing as naturals (the
claims under verification do not depend on the string-to-number coercion);
the string-compared settings stay strings. -/
structure WeatherEnv where
  WEATHER_PROVIDER : Option String := none
  WEATHER_CACHE_TTL_SECONDS : Option Nat := none
  WEATHER_TIMEOUT_MS : Option Nat := none
  WEATHER_DISABLE_CACHE : Option String := none
  WEATHER_DEBUG_RAW : Option String := none
deriving DecidableEq, Repr

def DEFAULT_TTL_SECONDS : Nat := 600
def DEFAULT_TIMEOUT_MS : Nat := 4000
def WEATHER_VERSION : String := "v3"

/-- `CITY_NAME_MAP`, the fixed name-alias table, as an association list. -/
def CITY_NAME_MAP : List (String × String) :=
  [("北京", "Beijing"), ("上海", "Shanghai"), ("广州", "Guangzhou"),
   ("深圳", "Shenzhen"), ("重庆", "Chongqing"), ("成都", "Chengdu"),
   ("杭州", "Hangzhou"), ("南京", "Nanjing"), ("武汉", "Wuhan"),
   ("西安", "Xian"), ("苏州", "Suzhou"), ("天津", "Tianjin"),
   ("长沙", "Changsha"), ("郑州", "Zhengzhou"), ("青岛", "Qingdao"),
   ("厦门", "Xiamen"), ("福州", "Fuzhou"), ("昆明", "Kunming"),
   ("贵阳", "Guiyang"), ("哈尔滨", "Harbin"), ("沈阳", "Shenyang"),
   ("合肥", "Hefei"), ("南昌", "Nanchang"), ("济南", "Jinan"),
   ("宁波", "Ningbo")]

/-- JS `toLowerCase()` on the basic latin range the source relies on, as a
structural map over the characters (core's `String.toLower` recurses by
well-founded recursion and does not evaluate inside the kernel). -/
def toLowerJS (s : String) : String :=
  ⟨s.data.map Char.toLower⟩

/-- JS `trim()`: strip leading and trailing whitespace. -/
def trimJS (s : String) : String :=
  ⟨((s.data.dropWhile Char.isWhitespace).reverse.dropWhile Char.isWhitespace).reverse⟩

/-- Splitting on a separator character class, keeping empty pieces, as JS
`split(/[,\uFF0C]/)` does. -/
def splitChars (p : Char → Bool) : List Char → List (List Char)
  | [] => [[]]
  | c :: cs =>
    if p c then [] :: splitChars p cs
    else
      match splitChars p cs with
      | [] => [[c]]
      | piece :: rest => (c :: piece) :: rest

def splitJS (s : String) (p : Char → Bool) : List String :=
  (splitChars p s.data).map fun l => ⟨l⟩

/-- `normalizeCity(city) = city.trim().toLowerCase()` -/
def normalizeCity (city : String) : String :=
  toLowerJS (trimJS city)

/-- UTF-16 code units of a string — the values `charCodeAt` walks over. -/
def codeUnits (s : String) : List Nat :=
  s.data.flatMap fun c =>
    let v := c.toNat
    if v < 0x10000 then [v]
    else [0xD800 + (v - 0x10000) / 0x400, 0xDC00 + (v - 0x10000) % 0x400]

/-- One step of the `hashString` loop: `hash ^= code; hash = Math.imul(hash, 16777619)`,
on the unsigned 32-bit image of the JS value. -/
def hashStep (hash : Nat) (code : Nat) : Nat :=
  ((hash ^^^ code) * 16777619) % 2 ^ 32

/-- `hashString`: FNV-1a-style fold over the code units; the trailing
`>>> 0` is the identity on the unsigned image, which every `hashStep`
already keeps below `2^32`. -/
def hashString (units : List Nat) : Nat :=
  units.foldl hashStep 2166136261

/-- `buildWeatherCacheKey(provider, normalizedCity, bucket)` -/
def providerTag : WeatherSource → String
  | .openMeteo => "open-meteo"
  | .mock => "mock"

/-- Decimal digit characters of a natural, most significant first, as JS
renders a nonnegative integer in a template string. -/
def natReprChars (n : Nat) : List Char :=
  if n = 0 then ['0'] else ((Nat.digits 10 n).map Nat.digitChar).reverse

/-- Characters of a JS integer in a template string: optional sign then digits. -/
def intReprChars (b : Int) : List Char :=
  if b < 0 then '-' :: natReprChars b.natAbs else natReprChars b.toNat

/-- `` `weather:${WEATHER_VERSION}:${provider}:${normalizedCity}:${bucket}` `` -/
def buildWeatherCacheKey (provider : WeatherSource) (normalizedCity : String)
    (bucket : Int) : String :=
  "weather:" ++ WEATHER_VERSION ++ ":" ++ providerTag provider ++ ":" ++
    normalizedCity ++ ":" ++ ⟨intReprChars bucket⟩

/-- `clamp(value, min, max) = Math.max(min, Math.min(max, value))` -/
def clamp (value min max : ℚ) : ℚ :=
  Max.max min (Min.min max value)

/-- `mapWeatherCode`: the fixed ordered threshold table; `none` models
`null`/`undefined`. -/
def mapWeatherCode (code : Option Int) : String :=
  match code with
  | none => "未知"
  | some c =>
    if c = 0 then "晴"
    else if c ≤ 3 then "多云"
    else if c ≤ 48 then "阴"
    else if c ≤ 67 then "小雨"
    else if c ≤ 77 then "小雪"
    else if c ≤ 82 then "阵雨"
    else if c ≤ 86 then "阵雪"
    else "未知"

/-- Result of `parseCityAndAdmin`. -/
structure ParsedCity where
  name : String
  admin1 : Option String
deriving DecidableEq, Repr

/-- `parseCityAndAdmin(raw)`: trim, split on ASCII or full-width comma,
trim the pieces, drop the empty ones; the name defaults to the trimmed
input when no piece survives. -/
def parseCityAndAdmin (raw : String) : ParsedCity :=
  let trimmed := trimJS raw
  let parts :=
    ((splitJS trimmed fun c => c == ',' || c == '，').map trimJS).filter (· ≠ "")
  { name := parts.headD trimmed, admin1 := parts.get? 1 }

/-- A geocoding-service candidate (`geo.results` element). -/
structure GeoCandidate where
  name : Option String := none
  country : Option String := none
  country_code : Option String := none
  admin1 : Option String := none
  latitude : Option ℚ := none
  longitude : Option ℚ := none
  timezone : Option String := none
deriving DecidableEq, Repr

/-- `selectGeocodeResult(results, targetName, targetAdmin)`: the narrowing
disambiguation pipeline.  `targetAdmin = some ""` mirrors a falsy JS hint
and leaves the admin stage inactive. -/
def selectGeocodeResult (results : List GeoCandidate) (targetName : String)
    (targetAdmin : Option String) : Option GeoCandidate :=
  let lowerName := toLowerJS targetName
  let candidates := results
  let cnCandidates := candidates.filter fun (item : GeoCandidate) =>
    item.country_code == some "CN"
  let candidates := if cnCandidates.length ≠ 0 then cnCandidates else candidates
  let candidates :=
    match targetAdmin with
    | none => candidates
    | some ta =>
      if ta = "" then candidates
      else
        let adminCandidates := candidates.filter fun (item : GeoCandidate) =>
          toLowerJS (item.admin1.getD "") == toLowerJS ta
        if adminCandidates.length ≠ 0 then adminCandidates else candidates
  let exactName := candidates.find? fun (item : GeoCandidate) =>
    toLowerJS (item.name.getD "") == lowerName
  match exactName with
  | some item => some item
  | none => candidates.head?

/-- The fixed 6-entry mock condition list. -/
def mockConditions : List String := ["晴", "多云", "阴", "小雨", "阵雨", "多雾"]

/-- `getMockWeather(city, normalizedCity)`; `nowIso` stands for
`new Date().toISOString()`. -/
def getMockWeather (_city : String) (normalizedCity : String) (nowIso : String) :
    WeatherSnapshot :=
  let hash := hashString (codeUnits normalizedCity)
  let temperatureC : ℚ := 8 + (hash % 25 : Nat)
  let humidity : ℚ := 30 + ((hash >>> 8) % 56 : Nat)
  let condition := mockConditions.getD ((hash >>> 16) % mockConditions.length) ""
  { condition, temperatureC, humidity, source := .mock, observedAt := some nowIso }

/-- `data.current` of the forecast response. -/
structure CurrentBlock where
  temperature_2m : Option ℚ := none
  relative_humidity_2m : Option ℚ := none
  weather_code : Option Int := none
  time : Option String := none
deriving DecidableEq, Repr

/-- `data.hourly` of the forecast response. -/
structure HourlyBlock where
  time : Option (List String) := none
  temperature_2m : Option (List ℚ) := none
  relative_humidity_2m : Option (List ℚ) := none
  weather_code : Option (List Int) := none
deriving DecidableEq, Repr

/-- The parsed forecast response body. -/
structure ForecastData where
  current : Option CurrentBlock := none
  hourly : Option HourlyBlock := none
deriving DecidableEq, Repr

/-- The four values the forecast read path produces. -/
structure ForecastReading where
  temperatureC : ℚ
  humidity : ℚ
  weatherCode : Option Int
  observedAt : Option String
deriving DecidableEq, Repr

/-- Lines 191–218 of the source: read the current block; if temperature or
humidity is missing re-bind all four values from the hourly series at the
matched (else 0) index; fail when temperature or humidity is still missing.
`nowHourIso` stands for `new Date().toISOString().slice(0, 13) + ':00'`. -/
def extractWeather (data : ForecastData) (nowHourIso : String) :
    Option ForecastReading :=
  let current := data.current
  let temperatureC := current.bind (·.temperature_2m)
  let humidity := current.bind (·.relative_humidity_2m)
  let weatherCode := current.bind (·.weather_code)
  let observedAt := current.bind (·.time)
  let (temperatureC, humidity, weatherCode, observedAt) :=
    if temperatureC.isNone || humidity.isNone then
      let hourly := data.hourly
      let targetTime := (current.bind (·.time)).getD nowHourIso
      let timeIndex : Int :=
        match (hourly.bind (·.time)).bind (·.findIdx? (· == targetTime)) with
        | some i => (i : Int)
        | none => -1
      let index : Nat := if 0 ≤ timeIndex then timeIndex.toNat else 0
      ((hourly.bind (·.temperature_2m)).bind (·.get? index),
       (hourly.bind (·.relative_humidity_2m)).bind (·.get? index),
       (hourly.bind (·.weather_code)).bind (·.get? index),
       (hourly.bind (·.time)).bind (·.get? index))
    else (temperatureC, humidity, weatherCode, observedAt)
  match temperatureC, humidity with
  | some t, some h => some { temperatureC := t, humidity := h, weatherCode, observedAt }
  | _, _ => none

/-- The geocoding response: HTTP status plus parsed body. -/
structure GeoResponse where
  ok : Bool
  results : Option (List GeoCandidate) := none
deriving Repr

/-- The forecast response: HTTP status plus parsed body. -/
structure ForecastResponse where
  ok : Bool
  data : ForecastData := {}
deriving Repr

/-- The effects visible to `getWeatherFromOpenMeteo` during one call: the
outcome of each `fetchWithTimeout` + `json()` pair (`Except.error` models a
thrown rejection — network failure or the timeout's `AbortController`
firing) and the synthesized top-of-this-hour timestamp. -/
structure OMWorld where
  geoFetch : Except Unit GeoResponse
  forecastFetch : Except Unit ForecastResponse
  nowHourIso : String := ""

/-- `getWeatherFromOpenMeteo(city, env)`.  The function body contains no
`try`/`catch`, so a thrown fetch rejection (`Except.error` in the world)
propagates to the caller; the configured timeout only determines when the
abort fires and has no further value-level effect. -/
def getWeatherFromOpenMeteo (city : String) (_env : WeatherEnv) (w : OMWorld) :
    Except Unit (Option WeatherSnapshot) := do
  let parsed := parseCityAndAdmin city
  let mappedName := ((CITY_NAME_MAP.find? (·.1 == parsed.name)).map (·.2)).getD parsed.name
  let geoResp ← w.geoFetch
  if !geoResp.ok then return none
  let location :=
    match geoResp.results with
    | some rs => selectGeocodeResult rs mappedName parsed.admin1
    | none => none
  match location with
  | none => return none
  | some loc =>
    match loc.latitude, loc.longitude with
    | some lat, some lon =>
      let weatherResp ← w.forecastFetch
      if !weatherResp.ok then return none
      match extractWeather weatherResp.data w.nowHourIso with
      | none => return none
      | some r =>
        return some
          { condition := mapWeatherCode r.weatherCode
            temperatureC := r.temperatureC
            humidity := r.humidity
            source := .openMeteo
            observedAt := r.observedAt
            geocode := some
              { name := loc.name, country := loc.country, admin1 := loc.admin1,
                latitude := some lat, longitude := some lon, timezone := loc.timezone } }
    | _, _ => return none

/-- The effects visible to `getWeatherByCity` during one call: the nested
live-lookup world, the platform cache content (keyed by the cache-key
string — the request URL `https://cache.local/weather?key=...` is an
injective image of it), whether `cache.match` / `cache.put` throw, and the
two clock readings. -/
structure WeatherWorld where
  om : OMWorld
  store : String → Option WeatherSnapshot
  matchThrows : Bool := false
  putThrows : Bool := false
  nowMs : Nat := 0
  nowIso : String := ""

/-- `normalizeCity(city || '未知')`. -/
def normalizedOf (city : String) : String :=
  normalizeCity (if city = "" then "未知" else city)

/-- `Math.floor(Date.now() / (ttlSeconds * 1000))`. -/
def bucketOf (env : WeatherEnv) (nowMs : Nat) : Nat :=
  nowMs / ((env.WEATHER_CACHE_TTL_SECONDS.getD DEFAULT_TTL_SECONDS) * 1000)

/-- `(env?.WEATHER_PROVIDER ?? 'auto').toLowerCase()`. -/
def providerSettingOf (env : WeatherEnv) : String :=
  toLowerJS (env.WEATHER_PROVIDER.getD "auto")

/-- The provider tag used for the cache key: `forceMock ? 'mock' : 'open-meteo'`. -/
def providerKeyOf (env : WeatherEnv) : WeatherSource :=
  if providerSettingOf env = "mock" then .mock else .openMeteo

/-- The cache key a call computes. -/
def computeCacheKey (city : String) (env : WeatherEnv) (nowMs : Nat) : String :=
  buildWeatherCacheKey (providerKeyOf env) (normalizedOf city) (bucketOf env nowMs)

/-- Lines 288–304 of the source: the snapshot computed on the non-hit
path — the guarded live lookup inside its `try`/`catch`, the mock
fallback, the two clamps and the miss/bypass tag. -/
def computeMissSnapshot (city : String) (env : WeatherEnv) (w : WeatherWorld) :
    WeatherSnapshot :=
  let providerSetting := providerSettingOf env
  let tryOpenMeteo := providerSetting == "auto" || providerSetting == "open-meteo"
  let forceMock := providerSetting == "mock"
  let disableCache := env.WEATHER_DISABLE_CACHE == some "1"
  let snapshot : Option WeatherSnapshot :=
    if tryOpenMeteo && !forceMock then
      match getWeatherFromOpenMeteo city env w.om with
      | .ok s => s
      | .error _ => none
    else none
  let snapshot := snapshot.getD (getMockWeather city (normalizedOf city) w.nowIso)
  { snapshot with
      temperatureC := clamp snapshot.temperatureC 8 32
      humidity := clamp snapshot.humidity 30 85
      cacheStatus := some (if disableCache then .bypass else .miss) }

/-- `getWeatherByCity(city, env)`.  Returns the snapshot together with the
cache content after the call; `Except.error` models an exception escaping
to the caller.  Only the live lookup sits inside a `try`/`catch`; the
`cache.match` and `cache.put` awaits do not, so a throwing cache call
propagates. -/
def getWeatherByCity (city : String) (env : WeatherEnv) (w : WeatherWorld) :
    Except Unit (WeatherSnapshot × (String → Option WeatherSnapshot)) :=
  let normalized := normalizedOf city
  let disableCache := env.WEATHER_DISABLE_CACHE == some "1"
  let cacheKey := computeCacheKey city env w.nowMs
  if disableCache then
    let snapshot := computeMissSnapshot city env w
    .ok ({ snapshot with cacheKey := some cacheKey, normalizedCity := some normalized },
         w.store)
  else if w.matchThrows then .error ()
  else
    match w.store cacheKey with
    | some cachedJson =>
      .ok ({ cachedJson with
               cacheKey := some cacheKey
               normalizedCity := some normalized
               cacheStatus := some .hit }, w.store)
    | none =>
      let snapshot := computeMissSnapshot city env w
      if w.putThrows then .error ()
      else
        .ok ({ snapshot with cacheKey := some cacheKey, normalizedCity := some normalized },
             fun k => if k = cacheKey then some snapshot else w.store k)

/-! ## Spec-side definitions (formalised from the claims' words, for
refinement comparisons with the source embedding above) -/

/-- The claim's fixed ordered threshold table (inclusive upper bounds,
ascending): `≤3 → cloudy; ≤48 → overcast; ≤67 → light-rain; ≤77 →
light-snow; ≤82 → showers; ≤86 → snow-showers`, with native labels. -/
def conditionThresholds : List (Int × String) :=
  [(3, "多云"), (48, "阴"), (67, "小雨"), (77, "小雪"), (82, "阵雨"), (86, "阵雪")]

/-- First-match scan of an ordered threshold table, defaulting to unknown. -/
def lookupFirstLE (c : Int) : List (Int × String) → String
  | [] => "未知"
  | (t, l) :: rest => if c ≤ t then l else lookupFirstLE c rest

/-- The claim's condition mapping: `null`/`undefined → unknown`, code 0 →
clear, otherwise the first threshold the code does not exceed wins. -/
def mapWeatherCodeSpec : Option Int → String
  | none => "未知"
  | some c => if c = 0 then "晴" else lookupFirstLE c conditionThresholds

/-- The claim's hash: an FNV-1a fold over the code units with seed
2166136261 and multiplier 16777619 under 32-bit unsigned wraparound. -/
def fnv1aSpec (units : List Nat) : Nat :=
  units.foldl (fun h c => ((h ^^^ c) * 16777619) % 4294967296) 2166136261

/-- One narrowing stage of the claim's filter pipeline: apply the filter
only when it leaves at least one survivor. -/
def narrowBy (p : GeoCandidate → Bool) (cs : List GeoCandidate) : List GeoCandidate :=
  let kept := cs.filter p
  if kept.isEmpty then cs else kept

/-- The claim's disambiguation pipeline: (a) narrow to country code `CN`;
(b) when an admin hint is given (a nonempty string — the empty string is a
falsy JS hint, i.e. no hint), narrow to survivors whose `admin1`
case-insensitively equals it; (c) pick the survivor whose name
case-insensitively equals the target, else the first survivor. -/
def selectGeocodeSpec (results : List GeoCandidate) (targetName : String)
    (targetAdmin : Option String) : Option GeoCandidate :=
  let afterCountry := narrowBy (fun i => i.country_code == some "CN") results
  let afterAdmin :=
    match targetAdmin with
    | none => afterCountry
    | some ta =>
      if ta = "" then afterCountry
      else narrowBy (fun i => toLowerJS (i.admin1.getD "") == toLowerJS ta) afterCountry
  match afterAdmin.find? (fun i => toLowerJS (i.name.getD "") == toLowerJS targetName) with
  | some chosen => some chosen
  | none => afterAdmin.head?

/-! ## Claim theorems -/

/-- Claim C6 — `mapWeatherCode` maps code 0 to clear (`晴`), codes ≤ 3 to
cloudy (`多云`), ≤ 48 to overcast (`阴`), ≤ 67 to light rain (`小雨`),
≤ 77 to light snow (`小雪`), ≤ 82 to showers (`阵雨`), ≤ 86 to snow
showers (`阵雪`), and every other code — including `null`/`undefined` — to
unknown (`未知`), the thresholds being inclusive upper bounds evaluated in
ascending order with the first match winning. -/
theorem mapWeatherCode_eq_thresholdTable (code : Option Int) :
    mapWeatherCode code = mapWeatherCodeSpec code := by
  cases code with
  | none => rfl
  | some c =>
    simp only [mapWeatherCode, mapWeatherCodeSpec, conditionThresholds, lookupFirstLE]

/-- Claim C5 — `getMockWeather` hashes the normalized city's code units with
the FNV-1a fold (seed 2166136261, multiplier 16777619, 32-bit unsigned
wraparound) and returns `temperatureC = 8 + hash % 25`,
`humidity = 30 + ((hash >>> 8) % 56)` and the condition at index
`(hash >>> 16) % 6` of the fixed 6-entry condition list; consequently any
two calls with the same normalized city agree on condition, temperature
and humidity (only `observedAt` may differ). -/
theorem getMockWeather_formulas :
    (∀ units : List Nat, hashString units = fnv1aSpec units) ∧
    (∀ city ncity now,
      (getMockWeather city ncity now).temperatureC =
          ((8 + fnv1aSpec (codeUnits ncity) % 25 : Nat) : ℚ) ∧
      (getMockWeather city ncity now).humidity =
          ((30 + (fnv1aSpec (codeUnits ncity) >>> 8) % 56 : Nat) : ℚ) ∧
      (getMockWeather city ncity now).condition =
          mockConditions.getD (fnv1aSpec (codeUnits ncity) >>> 16 % 6) "" ∧
      fnv1aSpec (codeUnits ncity) >>> 16 % 6 < mockConditions.length ∧
      (getMockWeather city ncity now).observedAt = some now) ∧
    (∀ city₁ city₂ ncity now₁ now₂,
      (getMockWeather city₁ ncity now₁).condition =
          (getMockWeather city₂ ncity now₂).condition ∧
      (getMockWeather city₁ ncity now₁).temperatureC =
          (getMockWeather city₂ ncity now₂).temperatureC ∧
      (getMockWeather city₁ ncity now₁).humidity =
          (getMockWeather city₂ ncity now₂).humidity) := by
  have hfold : ∀ units : List Nat, hashString units = fnv1aSpec units := by
    intro units
    unfold hashString fnv1aSpec
    congr 1
  refine ⟨hfold, ?_, ?_⟩
  · intro city ncity now
    refine ⟨?_, ?_, ?_, ?_, ?_⟩
    · simp only [getMockWeather, hfold]
      push_cast
      all_goals ring
    · simp only [getMockWeather, hfold]
      push_cast
      all_goals ring
    · simp only [getMockWeather, hfold, mockConditions]
      norm_num
    · simp only [mockConditions, List.length_cons, List.length_nil]
      omega
    · rfl
  · intro city₁ city₂ ncity now₁ now₂
    exact ⟨rfl, rfl, rfl⟩

lemma narrowBy_eq (p : GeoCandidate → Bool) (cs : List GeoCandidate) :
    narrowBy p cs = if (cs.filter p).isEmpty then cs else cs.filter p := rfl

lemma length_ite_eq_narrowBy (p : GeoCandidate → Bool) (cs : List GeoCandidate) :
    (if (cs.filter p).length ≠ 0 then cs.filter p else cs) = narrowBy p cs := by
  rw [narrowBy_eq]
  by_cases h : cs.filter p = []
  · simp [h]
  · simp [h, List.isEmpty_iff, List.length_eq_zero]

lemma mem_of_mem_narrowBy {p : GeoCandidate → Bool} {cs : List GeoCandidate}
    {c : GeoCandidate} (h : c ∈ narrowBy p cs) : c ∈ cs := by
  rw [narrowBy_eq] at h
  split at h
  · exact h
  · exact (List.mem_filter.mp h).1

lemma selectGeocodeResult_eq_spec (rs : List GeoCandidate) (t : String)
    (a : Option String) : selectGeocodeResult rs t a = selectGeocodeSpec rs t a := by
  cases a with
  | none =>
    simp only [selectGeocodeResult, selectGeocodeSpec]
    rw [length_ite_eq_narrowBy]
    rfl
  | some ta =>
    by_cases hta : ta = ""
    · subst hta
      simp only [selectGeocodeResult, selectGeocodeSpec]
      simp only [if_true]
      rw [length_ite_eq_narrowBy]
      rfl
    · simp only [selectGeocodeResult, selectGeocodeSpec, if_neg hta]
      rw [length_ite_eq_narrowBy, length_ite_eq_narrowBy]
      rfl



lemma selectGeocodeSpec_mem {rs : List GeoCandidate} {t : String} {a : Option String}
    {c : GeoCandidate} (h : selectGeocodeSpec rs t a = some c) : c ∈ rs := by
  have hmem : ∀ mid : List GeoCandidate,
      (∀ x, x ∈ mid → x ∈ rs) →
      (match mid.find? (fun i => toLowerJS (i.name.getD "") == toLowerJS t) with
        | some chosen => some chosen
        | none => mid.head?) = some c → c ∈ rs := by
    intro mid hsub hm
    split at hm
    · next x heq =>
      cases hm
      exact hsub _ (List.mem_of_find?_eq_some heq)
    · next heq =>
      exact hsub _ (List.mem_of_mem_head? (by simp [hm]))
  cases a with
  | none =>
    simp only [selectGeocodeSpec] at h
    exact hmem _ (fun x hx => mem_of_mem_narrowBy hx) h
  | some ta =>
    by_cases hta : ta = ""
    · subst hta
      simp only [selectGeocodeSpec, if_true] at h
      exact hmem _ (fun x hx => mem_of_mem_narrowBy hx) h
    · simp only [selectGeocodeSpec, if_neg hta] at h
      exact hmem _ (fun x hx => mem_of_mem_narrowBy (mem_of_mem_narrowBy hx)) h

lemma selectGeocodeResult_mem {rs : List GeoCandidate} {t : String}
    {a : Option String} {c : GeoCandidate}
    (h : selectGeocodeResult rs t a = some c) : c ∈ rs :=
  selectGeocodeSpec_mem (selectGeocodeResult_eq_spec rs t a ▸ h)

/-- Claim C3 — `selectGeocodeResult` is the narrowing filter pipeline applied
in order, each stage only taking effect if it leaves at least one survivor:
(a) keep candidates with country code `CN`; (b) given an admin hint, keep
survivors whose `admin1` case-insensitively equals it; (c) return the
survivor whose name case-insensitively equals the target, otherwise the
first survivor in provider order; no stage reorders or invents candidates,
and the Suzhou/Anhui instance from the claim resolves to the Anhui
candidate. -/
theorem selectGeocodeResult_narrowing :
    (∀ rs t a, selectGeocodeResult rs t a = selectGeocodeSpec rs t a) ∧
    (∀ rs t a c, selectGeocodeResult rs t a = some c → c ∈ rs) ∧
    selectGeocodeResult
        [{ name := some "Suzhou", admin1 := some "Jiangsu" },
         { name := some "Suzhou", admin1 := some "Anhui" }] "Suzhou" (some "Anhui") =
      some { name := some "Suzhou", admin1 := some "Anhui" } :=
  ⟨selectGeocodeResult_eq_spec, fun _ _ _ _ h => selectGeocodeResult_mem h, by decide⟩

/-- Witness for the hypothesis-bearing conjunct of C3. -/
theorem selectGeocodeResult_narrowing_witness :
    selectGeocodeResult [({ name := some "Beijing" } : GeoCandidate)] "Beijing" none =
        some { name := some "Beijing" } ∧
      ({ name := some "Beijing" } : GeoCandidate) ∈
        [({ name := some "Beijing" } : GeoCandidate)] :=
  ⟨by decide, selectGeocodeResult_narrowing.2.1 _ "Beijing" none _ (by decide)⟩

lemma data_mk (l : List Char) : (String.mk l).data = l := rfl

lemma buildWeatherCacheKey_data (p : WeatherSource) (c : String) (b : Int) :
    (buildWeatherCacheKey p c b).data =
      "weather:v3:".data ++ ((providerTag p).data ++ (':' :: (c.data ++ ':' :: intReprChars b))) := by
  simp only [buildWeatherCacheKey, WEATHER_VERSION, String.data_append, data_mk]
  simp [List.append_assoc]

lemma digitChar_ne_colon : ∀ d < 10, Nat.digitChar d ≠ ':' := by decide

lemma digitChar_ne_minus : ∀ d < 10, Nat.digitChar d ≠ '-' := by decide

lemma digitChar_inj : ∀ d < 10, ∀ e < 10, Nat.digitChar d = Nat.digitChar e → d = e := by decide

lemma mem_natReprChars {n : Nat} {c : Char} (hc : c ∈ natReprChars n) :
    ∃ d, d < 10 ∧ c = Nat.digitChar d := by
  unfold natReprChars at hc
  split at hc
  · simp only [List.mem_singleton] at hc
    exact ⟨0, by norm_num, by rw [hc]; decide⟩
  · rw [List.mem_reverse] at hc
    obtain ⟨d, hd, rfl⟩ := List.mem_map.mp hc
    exact ⟨d, Nat.digits_lt_base (by norm_num) hd, rfl⟩

lemma colon_not_mem_natReprChars (n : Nat) : ':' ∉ natReprChars n := by
  intro h
  obtain ⟨d, hd, he⟩ := mem_natReprChars h
  exact digitChar_ne_colon d hd he.symm

lemma minus_not_mem_natReprChars (n : Nat) : '-' ∉ natReprChars n := by
  intro h
  obtain ⟨d, hd, he⟩ := mem_natReprChars h
  exact digitChar_ne_minus d hd he.symm

lemma map_digitChar_inj : ∀ (ds es : List Nat), (∀ d ∈ ds, d < 10) → (∀ e ∈ es, e < 10) →
    ds.map Nat.digitChar = es.map Nat.digitChar → ds = es := by
  intro ds
  induction ds with
  | nil =>
    intro es _ _ h
    cases es with
    | nil => rfl
    | cons e es => simp at h
  | cons d ds ih =>
    intro es hds hes h
    cases es with
    | nil => simp at h
    | cons e es =>
      simp only [List.map_cons, List.cons.injEq] at h
      have hde : d = e := digitChar_inj d (hds d (by simp)) e (hes e (by simp)) h.1
      have hrest := ih es (fun x hx => hds x (by simp [hx])) (fun x hx => hes x (by simp [hx])) h.2
      rw [hde, hrest]

lemma natReprChars_inj {m n : Nat} (h : natReprChars m = natReprChars n) : m = n := by
  have key : ∀ k : Nat, k ≠ 0 →
      ((Nat.digits 10 k).map Nat.digitChar).reverse = ['0'] → False := by
    intro k hk hrev
    have h' : (Nat.digits 10 k).map Nat.digitChar = ['0'] := by
      have := congrArg List.reverse hrev
      simpa using this
    have hdig : Nat.digits 10 k = [0] :=
      map_digitChar_inj _ [0] (fun d hd => Nat.digits_lt_base (by norm_num) hd)
        (by intro e he; simp at he; omega) (by simpa using h')
    have h0 := Nat.ofDigits_digits 10 k
    rw [hdig] at h0
    simp [Nat.ofDigits] at h0
    exact hk h0.symm
  unfold natReprChars at h
  by_cases hm : m = 0 <;> by_cases hn : n = 0
  · omega
  · rw [if_pos hm, if_neg hn] at h
    exact absurd (key n hn h.symm) not_false
  · rw [if_neg hm, if_pos hn] at h
    exact absurd (key m hm h) not_false
  · rw [if_neg hm, if_neg hn] at h
    have h' : (Nat.digits 10 m).map Nat.digitChar = (Nat.digits 10 n).map Nat.digitChar := by
      have := congrArg List.reverse h
      simpa using this
    have hdig := map_digitChar_inj _ _ (fun d hd => Nat.digits_lt_base (by norm_num) hd)
      (fun d hd => Nat.digits_lt_base (by norm_num) hd) h'
    calc m = Nat.ofDigits 10 (Nat.digits 10 m) := (Nat.ofDigits_digits 10 m).symm
      _ = Nat.ofDigits 10 (Nat.digits 10 n) := by rw [hdig]
      _ = n := Nat.ofDigits_digits 10 n

lemma colon_not_mem_intReprChars (b : Int) : ':' ∉ intReprChars b := by
  unfold intReprChars
  split
  · intro h
    rcases List.mem_cons.mp h with h | h
    · exact absurd h (by decide)
    · exact colon_not_mem_natReprChars _ h
  · exact colon_not_mem_natReprChars _

lemma natReprChars_ne_minus_cons (n : Nat) (r : List Char) : natReprChars n ≠ '-' :: r := by
  intro h
  exact minus_not_mem_natReprChars n (h ▸ List.mem_cons_self '-' r)

lemma intReprChars_inj {b b' : Int} (h : intReprChars b = intReprChars b') : b = b' := by
  unfold intReprChars at h
  split at h <;> split at h
  · simp only [List.cons.injEq, true_and] at h
    have := natReprChars_inj h
    omega
  · exact absurd h.symm (natReprChars_ne_minus_cons _ _)
  · exact absurd h (natReprChars_ne_minus_cons _ _)
  · have := natReprChars_inj h
    omega

lemma append_colon_inj : ∀ (xs : List Char) {xs' ys ys' : List Char},
    ':' ∉ ys → ':' ∉ ys' → xs ++ ':' :: ys = xs' ++ ':' :: ys' → xs = xs' ∧ ys = ys' := by
  intro xs
  induction xs with
  | nil =>
    intro xs' ys ys' hy hy' h
    cases xs' with
    | nil => simpa using h
    | cons a as =>
      simp only [List.nil_append, List.cons_append, List.cons.injEq] at h
      exact absurd (h.2 ▸ List.mem_append_right as (List.mem_cons_self ':' ys')) hy
  | cons x txs ih =>
    intro xs' ys ys' hy hy' h
    cases xs' with
    | nil =>
      simp only [List.cons_append, List.nil_append, List.cons.injEq] at h
      exact absurd (h.2 ▸ List.mem_append_right txs (List.mem_cons_self ':' ys)) hy'
    | cons a as =>
      simp only [List.cons_append, List.cons.injEq] at h
      obtain ⟨rfl, h2⟩ := h
      obtain ⟨h3, h4⟩ := ih hy hy' h2
      exact ⟨by rw [h3], h4⟩

/-- Claim C4 — `buildWeatherCacheKey` is deterministic and injective: two
(provider, normalizedCity, bucket) triples with provider in
{`open-meteo`, `mock`} and integer bucket produce the same key string if
and only if they agree on all three fields; in particular identical
triples give identical keys and triples differing in any field give
different keys (the bucket segment contains no `:` so the city may). -/
theorem buildWeatherCacheKey_inj :
    ∀ (p p' : WeatherSource) (c c' : String) (b b' : Int),
      buildWeatherCacheKey p c b = buildWeatherCacheKey p' c' b' ↔ p = p' ∧ c = c' ∧ b = b' := by
  intro p p' c c' b b'
  constructor
  · intro h
    have hd := congrArg String.data h
    rw [buildWeatherCacheKey_data, buildWeatherCacheKey_data] at hd
    have hd2 := (List.append_right_inj _).mp hd
    cases p <;> cases p' <;> simp only [providerTag] at hd2 <;> simp at hd2
    case openMeteo.openMeteo =>
      obtain ⟨hc, hb⟩ := append_colon_inj c.data (colon_not_mem_intReprChars b)
        (colon_not_mem_intReprChars b') hd2
      exact ⟨rfl, String.ext hc, intReprChars_inj hb⟩
    case mock.mock =>
      obtain ⟨hc, hb⟩ := append_colon_inj c.data (colon_not_mem_intReprChars b)
        (colon_not_mem_intReprChars b') hd2
      exact ⟨rfl, String.ext hc, intReprChars_inj hb⟩
  · rintro ⟨rfl, rfl, rfl⟩
    rfl

/-- The claim's fallback index: the index whose timestamp equals the
current reading's time (or the synthesized top-of-this-hour timestamp when
`current.time` is absent), defaulting to index 0 when no timestamp
matches. -/
def claimFallbackIndex (data : ForecastData) (nowHourIso : String) : Nat :=
  let targetTime := (data.current.bind (·.time)).getD nowHourIso
  match (data.hourly.bind (·.time)).bind (·.findIdx? (· == targetTime)) with
  | some i => i
  | none => 0

/-- The claim's description of the read path: use the current block when it
has both temperature and humidity, otherwise read all four values from the
hourly series at the fallback index, failing if temperature or humidity is
still missing. -/
def extractWeatherSpec (data : ForecastData) (nowHourIso : String) :
    Option ForecastReading :=
  match data.current.bind (·.temperature_2m), data.current.bind (·.relative_humidity_2m) with
  | some t, some h =>
    some { temperatureC := t, humidity := h,
           weatherCode := data.current.bind (·.weather_code),
           observedAt := data.current.bind (·.time) }
  | _, _ =>
    let idx := claimFallbackIndex data nowHourIso
    match (data.hourly.bind (·.temperature_2m)).bind (·.get? idx),
          (data.hourly.bind (·.relative_humidity_2m)).bind (·.get? idx) with
    | some t, some h =>
      some { temperatureC := t, humidity := h,
             weatherCode := (data.hourly.bind (·.weather_code)).bind (·.get? idx),
             observedAt := (data.hourly.bind (·.time)).bind (·.get? idx) }
    | _, _ => none

lemma sourceIndex_eq_claim (o : Option Nat) :
    (if 0 ≤ (match o with | some i => (i : Int) | none => -1) then
        (match o with | some i => (i : Int) | none => -1).toNat
      else 0) = (match o with | some i => i | none => 0) := by
  cases o <;> simp

/-- Claim C7 — in `getWeatherFromOpenMeteo`'s read path, if the current
block lacks temperature or humidity the hourly series is read at the index
whose timestamp equals `current.time` (or the synthesized top-of-this-hour
timestamp when that is absent), defaulting to index 0 when no timestamp
matches; and the extraction yields `none` exactly when, after this
fallback, temperature or humidity is still missing. -/
theorem extractWeather_fallback (data : ForecastData) (nowHourIso : String) :
    extractWeather data nowHourIso = extractWeatherSpec data nowHourIso ∧
    (extractWeather data nowHourIso = none ↔
      (data.current.bind (·.temperature_2m) = none ∨
        data.current.bind (·.relative_humidity_2m) = none) ∧
      ((data.hourly.bind (·.temperature_2m)).bind
          (·.get? (claimFallbackIndex data nowHourIso)) = none ∨
        (data.hourly.bind (·.relative_humidity_2m)).bind
          (·.get? (claimFallbackIndex data nowHourIso)) = none)) := by
  have heq : extractWeather data nowHourIso = extractWeatherSpec data nowHourIso := by
    unfold extractWeather extractWeatherSpec claimFallbackIndex
    cases hT : data.current.bind (·.temperature_2m) <;>
      cases hH : data.current.bind (·.relative_humidity_2m) <;>
        simp [hT, hH, sourceIndex_eq_claim]
  refine ⟨heq, ?_⟩
  rw [heq]
  unfold extractWeatherSpec
  cases hT : data.current.bind (·.temperature_2m) <;>
    cases hH : data.current.bind (·.relative_humidity_2m) <;>
      cases hht : (data.hourly.bind (·.temperature_2m)).bind
          (·.get? (claimFallbackIndex data nowHourIso)) <;>
        cases hhh : (data.hourly.bind (·.relative_humidity_2m)).bind
            (·.get? (claimFallbackIndex data nowHourIso)) <;>
          (simp only [List.get?_eq_getElem?] at hht hhh ⊢; simp [hT, hH, hht, hhh])

lemma clamp_bounds (v lo hi : ℚ) (h : lo ≤ hi) : lo ≤ clamp v lo hi ∧ clamp v lo hi ≤ hi := by
  unfold clamp
  constructor
  · exact le_max_left _ _
  · exact max_le h (min_le_left _ _)

/-- Claim C1, counterexample — a throwing `cache.put` (and likewise a
throwing `cache.match`) aborts `getWeatherByCity` with an exception
instead of returning the computed snapshot: neither call sits in a
`try`/`catch`. -/
theorem getWeatherByCity_cache_throw_aborts :
    getWeatherByCity "Beijing" {}
        { om := { geoFetch := .error (), forecastFetch := .error () },
          store := fun _ => none, putThrows := true } = .error () ∧
    getWeatherByCity "Beijing" {}
        { om := { geoFetch := .error (), forecastFetch := .error () },
          store := fun _ => none, matchThrows := true } = .error () := by
  constructor <;> rfl

/-- Claim C1, amended — any failure of the live lookup degrades to the
mock snapshot and `getWeatherByCity` returns a `WeatherSnapshot`,
provided neither `cache.match` nor `cache.put` throws; a throwing cache
call, however, aborts the call (see the counterexample). -/
theorem getWeatherByCity_total_when_cache_ok (city : String) (env : WeatherEnv)
    (w : WeatherWorld) (hm : w.matchThrows = false) (hp : w.putThrows = false) :
    ∃ snap store, getWeatherByCity city env w = .ok (snap, store) := by
  unfold getWeatherByCity
  by_cases hd : (env.WEATHER_DISABLE_CACHE == some "1") = true
  · simp only [hd]
    exact ⟨_, _, rfl⟩
  · simp only [Bool.not_eq_true] at hd
    simp only [hd, hm, hp]
    cases hs : w.store (computeCacheKey city env w.nowMs) with
    | some cached => simp only [Bool.false_eq_true, if_false]; exact ⟨_, _, rfl⟩
    | none => simp only [Bool.false_eq_true, if_false]; exact ⟨_, _, rfl⟩

theorem getWeatherByCity_total_witness :
    ∃ snap store,
      getWeatherByCity "Beijing" {}
          { om := { geoFetch := .error (), forecastFetch := .error () },
            store := fun _ => none } = .ok (snap, store) :=
  getWeatherByCity_total_when_cache_ok "Beijing" {}
    { om := { geoFetch := .error (), forecastFetch := .error () },
      store := fun _ => none } rfl rfl

lemma computeMissSnapshot_bounds (city : String) (env : WeatherEnv) (w : WeatherWorld) :
    8 ≤ (computeMissSnapshot city env w).temperatureC ∧
      (computeMissSnapshot city env w).temperatureC ≤ 32 ∧
      30 ≤ (computeMissSnapshot city env w).humidity ∧
      (computeMissSnapshot city env w).humidity ≤ 85 := by
  simp only [computeMissSnapshot]
  exact ⟨(clamp_bounds _ _ _ (by norm_num)).1, (clamp_bounds _ _ _ (by norm_num)).2,
    (clamp_bounds _ _ _ (by norm_num)).1, (clamp_bounds _ _ _ (by norm_num)).2⟩

/-- Claim C2, counterexample — on a cache hit the stored payload's
out-of-range `temperatureC`/`humidity` are returned unchanged: the clamp
runs only on the non-hit path. -/
theorem getWeatherByCity_hit_skips_clamp :
    (getWeatherByCity "beijing" {}
        { om := { geoFetch := .error (), forecastFetch := .error () },
          store := fun k =>
            if k = computeCacheKey "beijing" {} 0 then
              some { condition := "晴", temperatureC := 100, humidity := 10,
                     source := .mock }
            else none }).map (fun p => (p.1.temperatureC, p.1.humidity)) =
      .ok (100, 10) ∧ ¬((100 : ℚ) ≤ 32) ∧ ¬((30 : ℚ) ≤ 10) := by
  refine ⟨?_, by norm_num, by norm_num⟩
  rfl

/-- Claim C2, amended — whenever the returned snapshot was not served
from a cache hit (its `cacheStatus` is not `hit`), it satisfies
`8 ≤ temperatureC ≤ 32` and `30 ≤ humidity ≤ 85`, regardless of how it
was obtained (live provider or mock); a cache hit returns the stored
numbers unchanged. -/
theorem getWeatherByCity_clamped_unless_hit (city : String) (env : WeatherEnv)
    (w : WeatherWorld) (snap : WeatherSnapshot)
    (store : String → Option WeatherSnapshot)
    (h : getWeatherByCity city env w = .ok (snap, store))
    (hnohit : snap.cacheStatus ≠ some CacheStatus.hit) :
    8 ≤ snap.temperatureC ∧ snap.temperatureC ≤ 32 ∧
      30 ≤ snap.humidity ∧ snap.humidity ≤ 85 := by
  unfold getWeatherByCity at h
  by_cases hd : (env.WEATHER_DISABLE_CACHE == some "1") = true
  · simp only [hd, if_true] at h
    simp only [Except.ok.injEq, Prod.mk.injEq] at h
    obtain ⟨h1, _⟩ := h
    rw [← h1]
    simpa using computeMissSnapshot_bounds city env w
  · simp only [Bool.not_eq_true] at hd
    simp only [hd, Bool.false_eq_true, if_false] at h
    by_cases hm : w.matchThrows = true
    · rw [if_pos hm] at h
      exact absurd h (by simp)
    · simp only [Bool.not_eq_true] at hm
      rw [if_neg (by simp [hm])] at h
      cases hs : w.store (computeCacheKey city env w.nowMs) with
      | some cached =>
        rw [hs] at h
        simp only [Except.ok.injEq, Prod.mk.injEq] at h
        obtain ⟨h1, _⟩ := h
        exact absurd (by rw [← h1]) hnohit
      | none =>
        rw [hs] at h
        by_cases hp : w.putThrows = true
        · rw [if_pos hp] at h
          exact absurd h (by simp)
        · simp only [Bool.not_eq_true] at hp
          rw [if_neg (by simp [hp])] at h
          simp only [Except.ok.injEq, Prod.mk.injEq] at h
          obtain ⟨h1, _⟩ := h
          rw [← h1]
          simpa using computeMissSnapshot_bounds city env w

/-- Witness for the amended claim C2. -/
theorem getWeatherByCity_clamped_witness :
    8 ≤ ({ computeMissSnapshot "x" {} { om := { geoFetch := .error (), forecastFetch := .error () }, store := fun _ => none } with
            cacheKey := some (computeCacheKey "x" {} 0)
            normalizedCity := some (normalizedOf "x") } : WeatherSnapshot).temperatureC := by
  have happ := getWeatherByCity_clamped_unless_hit "x" {}
    { om := { geoFetch := .error (), forecastFetch := .error () }, store := fun _ => none }
    { computeMissSnapshot "x" {} { om := { geoFetch := .error (), forecastFetch := .error () }, store := fun _ => none } with
        cacheKey := some (computeCacheKey "x" {} 0)
        normalizedCity := some (normalizedOf "x") }
    (fun k => if k = computeCacheKey "x" {} 0 then
        some (computeMissSnapshot "x" {} { om := { geoFetch := .error (), forecastFetch := .error () }, store := fun _ => none })
      else none)
    rfl (by decide)
  exact happ.1

/-- Claim C9 — on a cache hit, `getWeatherByCity` returns the stored
payload with exactly `cacheKey`, `normalizedCity` and `cacheStatus = hit`
overwritten by the current call's values (stored values for these three
fields are ignored), and every other field — condition, temperatureC,
humidity, source, observedAt, geocode — returned unchanged. -/
theorem getWeatherByCity_hit_overlay (city : String) (env : WeatherEnv)
    (w : WeatherWorld) (cached : WeatherSnapshot)
    (hd : (env.WEATHER_DISABLE_CACHE == some "1") = false)
    (hm : w.matchThrows = false)
    (hs : w.store (computeCacheKey city env w.nowMs) = some cached) :
    getWeatherByCity city env w =
      .ok ({ cached with
               cacheKey := some (computeCacheKey city env w.nowMs)
               normalizedCity := some (normalizedOf city)
               cacheStatus := some .hit }, w.store) ∧
    ∀ snap : WeatherSnapshot,
      snap = { cached with
                 cacheKey := some (computeCacheKey city env w.nowMs)
                 normalizedCity := some (normalizedOf city)
                 cacheStatus := some .hit } →
      snap.condition = cached.condition ∧ snap.temperatureC = cached.temperatureC ∧
        snap.humidity = cached.humidity ∧ snap.source = cached.source ∧
        snap.observedAt = cached.observedAt ∧ snap.geocode = cached.geocode ∧
        snap.cacheKey = some (computeCacheKey city env w.nowMs) ∧
        snap.normalizedCity = some (normalizedOf city) ∧
        snap.cacheStatus = some CacheStatus.hit := by
  constructor
  · unfold getWeatherByCity
    simp only [hd, Bool.false_eq_true, if_false, hm, hs]
  · rintro snap rfl
    exact ⟨rfl, rfl, rfl, rfl, rfl, rfl, rfl, rfl, rfl⟩

/-- Witness for claim C9, with a stored payload carrying stale values in
the three overwritten fields. -/
theorem getWeatherByCity_hit_overlay_witness :
    getWeatherByCity "shanghai" {}
        { om := { geoFetch := .error (), forecastFetch := .error () },
          store := fun k =>
            if k = computeCacheKey "shanghai" {} 0 then
              some { condition := "阴", temperatureC := 20, humidity := 50,
                     source := .openMeteo, cacheKey := some "stale-key",
                     cacheStatus := some .bypass, normalizedCity := some "stale" }
            else none } =
      .ok ({ condition := "阴", temperatureC := 20, humidity := 50,
             source := .openMeteo,
             cacheKey := some (computeCacheKey "shanghai" {} 0),
             cacheStatus := some .hit,
             normalizedCity := some (normalizedOf "shanghai") }, fun k =>
        if k = computeCacheKey "shanghai" {} 0 then
          some { condition := "阴", temperatureC := 20, humidity := 50,
                 source := .openMeteo, cacheKey := some "stale-key",
                 cacheStatus := some .bypass, normalizedCity := some "stale" }
        else none) :=
  (getWeatherByCity_hit_overlay "shanghai" {}
    { om := { geoFetch := .error (), forecastFetch := .error () },
      store := fun k =>
        if k = computeCacheKey "shanghai" {} 0 then
          some { condition := "阴", temperatureC := 20, humidity := 50,
                 source := .openMeteo, cacheKey := some "stale-key",
                 cacheStatus := some .bypass, normalizedCity := some "stale" }
        else none }
    { condition := "阴", temperatureC := 20, humidity := 50,
      source := .openMeteo, cacheKey := some "stale-key",
      cacheStatus := some .bypass, normalizedCity := some "stale" }
    rfl rfl (by rfl)).1

/-- A thrown fetch rejection passes through `getWeatherFromOpenMeteo`
unchanged — the function body has no `try`/`catch`. -/
lemma getWeatherFromOpenMeteo_geoThrow (city : String) (env : WeatherEnv)
    (omw : OMWorld) (hgeo : omw.geoFetch = .error ()) :
    getWeatherFromOpenMeteo city env omw = .error () := by
  unfold getWeatherFromOpenMeteo
  rw [hgeo]
  rfl

/-- With the live lookup throwing, the non-hit snapshot is the mock one. -/
lemma computeMissSnapshot_source_mock (city : String) (env : WeatherEnv)
    (w : WeatherWorld) (hgeo : w.om.geoFetch = .error ()) :
    (computeMissSnapshot city env w).source = .mock := by
  unfold computeMissSnapshot
  rw [getWeatherFromOpenMeteo_geoThrow city env w.om hgeo]
  by_cases htry : ((providerSettingOf env == "auto" || providerSettingOf env == "open-meteo") &&
      !(providerSettingOf env == "mock")) = true
  · simp [htry, getMockWeather]
  · simp only [Bool.not_eq_true] at htry
    simp [htry, getMockWeather]

/-- Claim C8, counterexample — when the timeout aborts the geocode
request (a thrown fetch rejection), `getWeatherFromOpenMeteo` surfaces an
exception rather than yielding the failure result `none`. -/
theorem getWeatherFromOpenMeteo_timeout_throws :
    getWeatherFromOpenMeteo "Beijing" {}
        { geoFetch := .error (), forecastFetch := .error () } = .error () ∧
    getWeatherFromOpenMeteo "Beijing" {}
        { geoFetch := .error (), forecastFetch := .error () } ≠ .ok none := by
  have h1 : getWeatherFromOpenMeteo "Beijing" {}
      { geoFetch := .error (), forecastFetch := .error () } = .error () := rfl
  exact ⟨h1, by rw [h1]; simp⟩

/-- Claim C8, amended — a thrown fetch rejection (the timeout's abort)
propagates out of `getWeatherFromOpenMeteo`, which has no internal catch;
it is `getWeatherByCity`'s `try`/`catch` that absorbs it, so the live
failure degrades to the mock snapshot and no exception reaches the
orchestrator's caller (given the cache calls themselves do not throw). -/
theorem timeout_throw_escapes_om_absorbed_by_orchestrator :
    (∀ (city : String) (env : WeatherEnv) (omw : OMWorld),
        omw.geoFetch = .error () → getWeatherFromOpenMeteo city env omw = .error ()) ∧
    (∀ (city : String) (env : WeatherEnv) (w : WeatherWorld),
        w.matchThrows = false → w.putThrows = false → w.om.geoFetch = .error () →
        w.store (computeCacheKey city env w.nowMs) = none →
        ∃ st, getWeatherByCity city env w =
            .ok ({ computeMissSnapshot city env w with
                     cacheKey := some (computeCacheKey city env w.nowMs)
                     normalizedCity := some (normalizedOf city) }, st) ∧
          (computeMissSnapshot city env w).source = .mock) := by
  refine ⟨getWeatherFromOpenMeteo_geoThrow, ?_⟩
  intro city env w hm hp hgeo hs
  have hmock := computeMissSnapshot_source_mock city env w hgeo
  unfold getWeatherByCity
  by_cases hd : (env.WEATHER_DISABLE_CACHE == some "1") = true
  · exact ⟨w.store, by simp only [hd, if_true], hmock⟩
  · simp only [Bool.not_eq_true] at hd
    refine ⟨fun k => if k = computeCacheKey city env w.nowMs then
        some (computeMissSnapshot city env w) else w.store k, ?_, hmock⟩
    simp only [hd, Bool.false_eq_true, if_false, hm, hs, hp]

/-- Witness for the amended claim C8. -/
theorem timeout_throw_escapes_witness :
    ∃ st,
      getWeatherByCity "Wuhan" {}
          { om := { geoFetch := .error (), forecastFetch := .error () },
            store := fun _ => none } =
        .ok ({ computeMissSnapshot "Wuhan" {}
                 { om := { geoFetch := .error (), forecastFetch := .error () },
                   store := fun _ => none } with
                 cacheKey := some (computeCacheKey "Wuhan" {} 0)
                 normalizedCity := some (normalizedOf "Wuhan") }, st) ∧
      (computeMissSnapshot "Wuhan" {}
          { om := { geoFetch := .error (), forecastFetch := .error () },
            store := fun _ => none }).source = .mock :=
  timeout_throw_escapes_om_absorbed_by_orchestrator.2 "Wuhan" {}
    { om := { geoFetch := .error (), forecastFetch := .error () },
      store := fun _ => none } rfl rfl rfl rfl

/-- Claim C10 — for a provider setting whose lowercased value is none of
`auto`, `open-meteo`, `mock`, the live lookup is skipped and a mock
snapshot is returned, yet the cache key is built with provider tag
`open-meteo`; on a miss the mock snapshot is stored under that key and a
later call in the same bucket is served from it as a hit. -/
theorem getWeatherByCity_unknown_provider (s city : String) (env : WeatherEnv)
    (w : WeatherWorld)
    (hprov : env.WEATHER_PROVIDER = some s)
    (h1 : toLowerJS s ≠ "auto") (h2 : toLowerJS s ≠ "open-meteo")
    (h3 : toLowerJS s ≠ "mock")
    (hd : (env.WEATHER_DISABLE_CACHE == some "1") = false)
    (hm : w.matchThrows = false) (hp : w.putThrows = false)
    (hs : w.store (computeCacheKey city env w.nowMs) = none) :
    computeCacheKey city env w.nowMs =
        buildWeatherCacheKey .openMeteo (normalizedOf city) (bucketOf env w.nowMs) ∧
    ∃ stored st,
      getWeatherByCity city env w =
        .ok ({ stored with
                 cacheKey := some (computeCacheKey city env w.nowMs)
                 normalizedCity := some (normalizedOf city) }, st) ∧
      stored.source = .mock ∧
      st (computeCacheKey city env w.nowMs) = some stored ∧
      ∃ snap2, getWeatherByCity city env { w with store := st } = .ok (snap2, st) ∧
        snap2.cacheStatus = some CacheStatus.hit ∧ snap2.source = .mock := by
  have hsetting : providerSettingOf env = toLowerJS s := by
    unfold providerSettingOf
    rw [hprov]
    rfl
  have hpk : providerKeyOf env = .openMeteo := by
    unfold providerKeyOf
    rw [hsetting, if_neg h3]
  have hsource : (computeMissSnapshot city env w).source = .mock := by
    unfold computeMissSnapshot
    rw [hsetting]
    simp [h1, h2, h3, getMockWeather]
  constructor
  · unfold computeCacheKey
    rw [hpk]
  · refine ⟨computeMissSnapshot city env w,
      fun k => if k = computeCacheKey city env w.nowMs then
        some (computeMissSnapshot city env w) else w.store k, ?_, hsource, by simp, ?_⟩
    · unfold getWeatherByCity
      simp only [hd, Bool.false_eq_true, if_false, hm, hs, hp]
    · refine ⟨{ computeMissSnapshot city env w with
                  cacheKey := some (computeCacheKey city env w.nowMs)
                  normalizedCity := some (normalizedOf city)
                  cacheStatus := some .hit }, ?_, rfl, hsource⟩
      unfold getWeatherByCity
      simp only [hd, Bool.false_eq_true, if_false, hm]
      simp

/-- Witness for claim C10 at the concrete setting `foo`. -/
theorem getWeatherByCity_unknown_provider_witness :
    computeCacheKey "Beijing" { WEATHER_PROVIDER := some "foo" } 0 =
        buildWeatherCacheKey .openMeteo (normalizedOf "Beijing")
          (bucketOf { WEATHER_PROVIDER := some "foo" } 0) ∧
    ∃ stored st,
      getWeatherByCity "Beijing" { WEATHER_PROVIDER := some "foo" }
          { om := { geoFetch := .error (), forecastFetch := .error () },
            store := fun _ => none } =
        .ok ({ stored with
                 cacheKey := some (computeCacheKey "Beijing" { WEATHER_PROVIDER := some "foo" } 0)
                 normalizedCity := some (normalizedOf "Beijing") }, st) ∧
      stored.source = .mock ∧
      st (computeCacheKey "Beijing" { WEATHER_PROVIDER := some "foo" } 0) = some stored ∧
      ∃ snap2,
        getWeatherByCity "Beijing" { WEATHER_PROVIDER := some "foo" }
            { om := { geoFetch := .error (), forecastFetch := .error () },
              store := st } = .ok (snap2, st) ∧
          snap2.cacheStatus = some CacheStatus.hit ∧ snap2.source = .mock :=
  getWeatherByCity_unknown_provider "foo" "Beijing" { WEATHER_PROVIDER := some "foo" }
    { om := { geoFetch := .error (), forecastFetch := .error () },
      store := fun _ => none }
    rfl (by decide) (by decide) (by decide) rfl rfl rfl rfl

end Weather
